import Mathlib

/-!
Verification of the SQLite tool service in `mcp_servers/sqlite_tools.py`.

The service exposes seven operations (`execute_query`, `execute_modification`,
`create_table`, `get_schema`, `insert_data`, `get_table_data`,
`backup_database`) over a single-file SQLite database.  Each operation opens
one connection with `with get_db_connection(db_path) as conn:`, performs one
unit of work, and wraps the whole body in `try/except` clauses that turn
exceptions into structured result dictionaries.

The embedding below models:

* the database file as an explicit value (`DB`, a list of tables), with the
  possibility that opening it fails (`FileState.corrupt`, standing for a path
  on which `sqlite3.connect` / the first statement raises `sqlite3.Error`,
  e.g. "unable to open database file");
* SQL statements as an AST (`Stmt`) standing for the statement text the
  Python code passes to `cursor.execute`; positional parameter binding is
  folded into the AST (a `Stmt` value is a statement with its parameters
  already bound), so the `if params: cursor.execute(query, params)` branch
  and the plain `cursor.execute(query)` branch execute the same bound
  statement;
* the engine (`execStmt`) as a pure step function returning either an
  `ExecResult` and the post-state or a `Fault.engine` (for `sqlite3.Error`),
  following documented SQLite behaviour: `CREATE TABLE IF NOT EXISTS` is a
  no-op on an existing table but a zero-column column list is a syntax
  error; a negative `LIMIT` means "no limit" and a negative `OFFSET` means
  zero; a missing table or column is an engine error;
* arbitrary non-engine runtime faults (Python's `except Exception` clause
  exists precisely for these) as an injectable `rtFault : Option String`,
  modelled as raised at the start of the `try` block; for `backup_database`
  the file write can additionally fail (`writeFault`, an `OSError` from
  `open`/`json.dump`, which happens after the connection block);
* the connection lifecycle as a `ConnTrace`.  Python's
  `with sqlite3.connect(...) as conn:` context manager commits the pending
  transaction on normal exit and rolls it back on an exception, but it does
  **not** close the connection (documented `sqlite3` behaviour); the source
  contains no `conn.close()` call, so no trace ever records a close;
* result dictionaries as a record of optional fields (`ResultDict`), one
  field per key the Python dictionaries use.  The wall-clock `timestamp`
  fields are not modelled.
-/

namespace SqliteTools

/-- Scalar values stored in the database (NULL, INTEGER, TEXT; REAL and BLOB
values play no role in any verified property and are omitted). -/
inductive Value where
  | null
  | int (i : Int)
  | text (s : String)
  deriving DecidableEq, Repr

/-- A row, as returned through `sqlite3.Row` and `dict(row)`: a mapping from
column name to value, in column order. -/
abbrev Row := List (String × Value)

/-- One table of the database file: its name, its declared columns
(name, declared type) in creation order, its rows, and the rowid most
recently assigned by an insert (SQLite assigns `lastId + 1` to the next
inserted row; fresh tables start at 0). -/
structure Table where
  name : String
  cols : List (String × String)
  rows : List Row
  lastId : Int := 0
  deriving DecidableEq, Repr

/-- The content of one SQLite database file. -/
structure DB where
  tables : List Table
  deriving DecidableEq, Repr

/-- The state of the file at the `db_path` an operation receives: either a
database, or a path on which connecting / executing raises `sqlite3.Error`
with the given message (e.g. "unable to open database file"). -/
inductive FileState where
  | corrupt (msg : String)
  | good (db : DB)
  deriving DecidableEq, Repr

/-- A fault raised inside an operation's `try` block: `engine` stands for
`sqlite3.Error` (and its subclasses), `unexpected` for any other
`Exception`. -/
inductive Fault where
  | engine (msg : String)
  | unexpected (msg : String)
  deriving DecidableEq, Repr

/-- What `cursor` exposes after a successful `execute`: the fetched rows,
`cursor.rowcount` (-1 for non-DML statements) and `cursor.lastrowid`. -/
structure ExecResult where
  rows : List Row := []
  rowcount : Int := -1
  lastrowid : Option Int := none
  deriving DecidableEq, Repr

/-- Parsed form of a raw `WHERE` predicate string.  The service passes
`where_clause` text through verbatim, so the engine model parses it; the
verified properties hold for any fixed parse function, and this one keeps a
deliberately small grammar: the literals `1` / `0` and a single
`column = integer` comparison. -/
inductive Pred where
  | always
  | never
  | colEqInt (col : String) (n : Int)
  deriving DecidableEq, Repr

/-- Strip leading and trailing spaces from a character list. -/
def trimChars (cs : List Char) : List Char :=
  (((cs.dropWhile (fun c => c = ' ')).reverse).dropWhile (fun c => c = ' ')).reverse

/-- Split a character list at the first `=`, if any. -/
def splitAtEq : List Char → Option (List Char × List Char)
  | [] => none
  | '=' :: rest => some ([], rest)
  | c :: rest => (splitAtEq rest).map (fun p => (c :: p.1, p.2))

/-- Read a decimal digit sequence. -/
def parseNatChars : List Char → Option Nat
  | [] => none
  | cs => cs.foldl
      (fun acc c => match acc with
        | none => none
        | some n => if c.isDigit then some (n * 10 + (c.toNat - 48)) else none)
      (some 0)

/-- Read an optionally negated decimal integer. -/
def parseIntChars : List Char → Option Int
  | '-' :: rest => (parseNatChars rest).map (fun n => -(n : Int))
  | cs => (parseNatChars cs).map (fun n => (n : Int))

/-- Parse a raw predicate string; anything outside the modelled grammar is
an engine-level syntax error, as SQLite reports for malformed text. -/
def parsePred (s : String) : Except Fault Pred :=
  if s = "1" then .ok .always
  else if s = "0" then .ok .never
  else
    match splitAtEq s.data with
    | some (l, r) =>
      if r.contains '=' then .error (.engine ("near \"" ++ s ++ "\": syntax error"))
      else
        match parseIntChars (trimChars r) with
        | some n => .ok (.colEqInt (String.mk (trimChars l)) n)
        | none => .error (.engine ("near \"" ++ s ++ "\": syntax error"))
    | none => .error (.engine ("near \"" ++ s ++ "\": syntax error"))

/-- Evaluate a parsed predicate on a row (SQL semantics: comparing a missing
or non-integer value is not true). -/
def evalPred (p : Pred) (r : Row) : Bool :=
  match p with
  | .always => true
  | .never => false
  | .colEqInt c n =>
    match r.find? (fun kv => kv.1 = c) with
    | some (_, .int m) => m = n
    | _ => false

/-- A column referenced by the predicate that the table does not declare,
if any (SQLite rejects the statement with "no such column"). -/
def predBadCol (cols : List (String × String)) : Pred → Option String
  | .always => none
  | .never => none
  | .colEqInt c _ => if cols.any (fun p => p.1 = c) then none else some c

/-- Resolve an optional raw `WHERE` string against a table's columns:
no string means no filter; otherwise parse it and check the referenced
column exists. -/
def resolveWhere (cols : List (String × String)) : Option String → Except Fault Pred
  | none => .ok .always
  | some s =>
    match parsePred s with
    | .error f => .error f
    | .ok p =>
      match predBadCol cols p with
      | some c => .error (.engine ("no such column: " ++ c))
      | none => .ok p

/-- Look a table up by name. -/
def findTable (db : DB) (tn : String) : Option Table :=
  db.tables.find? (fun t => t.name = tn)

/-- Replace the table of the same name. -/
def replaceTable (db : DB) (t : Table) : DB :=
  ⟨db.tables.map (fun u => if u.name = t.name then t else u)⟩

/-- SQLite `LIMIT lim OFFSET off` semantics: a negative `OFFSET` behaves
like zero, and a negative `LIMIT` means no upper bound on the number of
returned rows. -/
def applyLimitOffset (rows : List Row) (lim off : Int) : List Row :=
  let dropped := rows.drop off.toNat
  if lim < 0 then dropped else dropped.take lim.toNat

/-- The statements the service's operations pass to `cursor.execute`,
with positional parameters already bound.  `malformed` stands for any
statement text the engine fails to parse. -/
inductive Stmt where
  | selectAll (table : String)
  | selectPage (table : String) (whereStr : Option String) (lim off : Int)
  | countRows (table : String) (whereStr : Option String)
  | insertRow (table : String) (cols : List String) (vals : List Value)
  | deleteWhere (table : String) (whereStr : Option String)
  | createTableIfNotExists (table : String) (cols : List (String × String))
  | malformed (text : String)
  deriving DecidableEq, Repr

/-- The engine: execute one bound statement against a database, returning
the cursor outcome and the post-state, or an engine fault.  A single
statement is atomic: on a fault the database is unmodified (SQLite
single-statement atomicity). -/
def execStmt (db : DB) : Stmt → Except Fault (ExecResult × DB)
  | .selectAll tn =>
    match findTable db tn with
    | none => .error (.engine ("no such table: " ++ tn))
    | some t => .ok ({ rows := t.rows }, db)
  | .selectPage tn w lim off =>
    match findTable db tn with
    | none => .error (.engine ("no such table: " ++ tn))
    | some t =>
      match resolveWhere t.cols w with
      | .error f => .error f
      | .ok p => .ok ({ rows := applyLimitOffset (t.rows.filter (evalPred p)) lim off }, db)
  | .countRows tn w =>
    match findTable db tn with
    | none => .error (.engine ("no such table: " ++ tn))
    | some t =>
      match resolveWhere t.cols w with
      | .error f => .error f
      | .ok p =>
        .ok ({ rows := [[("COUNT(*)", .int ((t.rows.filter (evalPred p)).length : Int))]] }, db)
  | .insertRow tn cs vs =>
    match findTable db tn with
    | none => .error (.engine ("no such table: " ++ tn))
    | some t =>
      if cs.length = vs.length then
        match cs.find? (fun c => !(t.cols.any (fun p => p.1 = c))) with
        | some c => .error (.engine ("table " ++ tn ++ " has no column named " ++ c))
        | none =>
          let newId := t.lastId + 1
          .ok ({ rowcount := 1, lastrowid := some newId },
               replaceTable db { t with rows := t.rows ++ [cs.zip vs], lastId := newId })
      else
        .error (.engine (toString vs.length ++ " values for " ++ toString cs.length ++ " columns"))
  | .deleteWhere tn w =>
    match findTable db tn with
    | none => .error (.engine ("no such table: " ++ tn))
    | some t =>
      match resolveWhere t.cols w with
      | .error f => .error f
      | .ok p =>
        .ok ({ rowcount := ((t.rows.filter (evalPred p)).length : Int) },
             replaceTable db { t with rows := t.rows.filter (fun r => !(evalPred p r)) })
  | .createTableIfNotExists tn cols =>
    if cols.isEmpty then .error (.engine ("near \")\": syntax error"))
    else
      match findTable db tn with
      | some _ => .ok ({}, db)
      | none => .ok ({}, ⟨db.tables ++ [{ name := tn, cols := cols, rows := [] }]⟩)
  | .malformed s => .error (.engine ("near \"" ++ s ++ "\": syntax error"))

/-- Statements that read the database without mutating it. -/
def readOnlyStmt : Stmt → Bool
  | .selectAll _ => true
  | .selectPage _ _ _ _ => true
  | .countRows _ _ => true
  | .insertRow _ _ _ => false
  | .deleteWhere _ _ => false
  | .createTableIfNotExists _ _ => false
  | .malformed _ => false

/-- Mirrors `cursor.fetchone()[0]` after a `COUNT(*)` query.  The engine
always answers a `COUNT(*)` with one single-column integer row, so the
fallback branch is unreachable. -/
def extractCount (r : ExecResult) : Nat :=
  match r.rows with
  | ((_, .int n) :: _) :: _ => n.toNat
  | _ => 0

/-- Mirrors the Python truthiness test `if where_clause:`: both `None` and
the empty string leave the query without a `WHERE` clause. -/
def effWhere : Option String → Option String
  | none => none
  | some s => if s = "" then none else some s

/-- The number of live rows of a table matching an optional raw `WHERE`
string, if the table exists and the predicate resolves. -/
def liveCount (db : DB) (tn : String) (w : Option String) : Option Nat :=
  match findTable db tn with
  | none => none
  | some t =>
    match resolveWhere t.cols w with
    | .error _ => none
    | .ok p => some ((t.rows.filter (evalPred p)).length)

/-- The statement text `create_table` synthesizes:
`f"CREATE TABLE IF NOT EXISTS {table_name} ({', '.join(column_defs)})"`
with one `f"{col_name} {col_type}"` entry per column, in map iteration
order. -/
def mkCreateSql (tn : String) (cols : List (String × String)) : String :=
  "CREATE TABLE IF NOT EXISTS " ++ tn ++ " (" ++
    String.intercalate ", " (cols.map (fun c => c.1 ++ " " ++ c.2)) ++ ")"

/-- `except sqlite3.Error as e:` message: `f"SQLite error: {str(e)}"`. -/
def wrapEngine (m : String) : String := "SQLite error: " ++ m

/-- `except Exception as e:` message: `f"Unexpected error: {str(e)}"`. -/
def wrapUnexpected (m : String) : String := "Unexpected error: " ++ m

/-- `backup_database`'s single handler message: `f"Backup error: {str(e)}"`. -/
def wrapBackup (m : String) : String := "Backup error: " ++ m

/-- Dispatch of the two `except` clauses the first six operations share. -/
def faultMsg : Fault → String
  | .engine m => wrapEngine m
  | .unexpected m => wrapUnexpected m

/-- Column description of one table as `get_schema` reports it (via
`PRAGMA table_info`); only name, declared type and the column count are
modelled. -/
structure TableSchema where
  columns : List (String × String)
  column_count : Nat
  deriving DecidableEq, Repr

/-- The `schema_info` dictionary `get_schema` builds. -/
structure SchemaInfo where
  database_path : String
  tables : List (String × TableSchema)
  table_count : Nat
  deriving DecidableEq, Repr

/-- One table's entry in the backup JSON: its serialized rows and the
stored `row_count`. -/
structure TableBackup where
  data : List Row
  row_count : Nat
  deriving DecidableEq, Repr

/-- The `backup_data` structure `backup_database` serializes to the backup
file (the wall-clock `backup_timestamp` is not modelled). -/
structure BackupData where
  source_database : String
  tables : List (String × TableBackup)
  deriving DecidableEq, Repr

/-- The result dictionary an operation returns: one optional field per key
any of the seven Python operations ever places in its dictionary (the
wall-clock `timestamp` keys are not modelled).  A missing key is `none`. -/
structure ResultDict where
  success : Bool
  error : Option String := none
  rows : Option (List Row) := none
  row_count : Option Nat := none
  query : Option Stmt := none
  affected_rows : Option Int := none
  last_row_id : Option (Option Int) := none
  table_name : Option String := none
  columns : Option (List (String × String)) := none
  sql : Option String := none
  schema : Option SchemaInfo := none
  inserted_data : Option Row := none
  data : Option Row := none
  row_id : Option (Option Int) := none
  returned_rows : Option Nat := none
  total_rows : Option Nat := none
  limit : Option Int := none
  offset : Option Int := none
  where_clause : Option (Option String) := none
  backup_path : Option String := none
  source_database : Option String := none
  tables_backed_up : Option Nat := none
  deriving DecidableEq, Repr

/-- Connection-lifecycle events of one operation call.  Python's sqlite3
connection context manager (`with conn:`) commits on normal exit and rolls
back on an exception; it does not close the connection, and the source
never calls `conn.close()`. -/
structure ConnTrace where
  opened : Bool := false
  commits : Nat := 0
  rollbacks : Nat := 0
  closed : Bool := false
  deriving DecidableEq, Repr

/-- Everything one operation call produces: the returned dictionary, the
file state after the call, the connection trace, and (for
`backup_database`) the serialized backup artifact, if one was written. -/
structure OpResult where
  result : ResultDict
  fs : FileState
  trace : ConnTrace
  written : Option BackupData := none
  deriving DecidableEq, Repr

/-- Whether a failure dictionary carries any echoed diagnostic context
beyond the message: the offending statement, a table name, or the source
database path. -/
def hasCtx (d : ResultDict) : Bool :=
  d.query.isSome || d.table_name.isSome || d.source_database.isSome

/-- Embedding of `execute_query(query, db_path, params)`. -/
def execute_query (query : Stmt) (db_path : String) (fs : FileState)
    (rtFault : Option String) : OpResult :=
  match rtFault with
  | some m =>
    { result := { success := false, error := some (wrapUnexpected m), query := some query },
      fs := fs, trace := {} }
  | none =>
    match fs with
    | .corrupt m =>
      { result := { success := false, error := some (wrapEngine m), query := some query },
        fs := fs, trace := {} }
    | .good db =>
      match execStmt db query with
      | .error f =>
        { result := { success := false, error := some (faultMsg f), query := some query },
          fs := .good db, trace := { opened := true, rollbacks := 1 } }
      | .ok (r, db') =>
        { result := { success := true, rows := some r.rows, row_count := some r.rows.length,
                      query := some query },
          fs := .good db', trace := { opened := true, commits := 1 } }

/-- Embedding of `execute_modification(query, db_path, params)`.  The body
calls `conn.commit()` explicitly and the `with` block commits again on
normal exit, hence two commit events on success. -/
def execute_modification (query : Stmt) (db_path : String) (fs : FileState)
    (rtFault : Option String) : OpResult :=
  match rtFault with
  | some m =>
    { result := { success := false, error := some (wrapUnexpected m), query := some query },
      fs := fs, trace := {} }
  | none =>
    match fs with
    | .corrupt m =>
      { result := { success := false, error := some (wrapEngine m), query := some query },
        fs := fs, trace := {} }
    | .good db =>
      match execStmt db query with
      | .error f =>
        { result := { success := false, error := some (faultMsg f), query := some query },
          fs := .good db, trace := { opened := true, rollbacks := 1 } }
      | .ok (r, db') =>
        { result := { success := true, affected_rows := some r.rowcount,
                      last_row_id := some r.lastrowid, query := some query },
          fs := .good db', trace := { opened := true, commits := 2 } }

/-- Embedding of `create_table(table_name, columns, db_path)`: synthesize
the `CREATE TABLE IF NOT EXISTS` text from the column map (iteration
order = list order) and execute it. -/
def create_table (table_name : String) (columns : List (String × String))
    (db_path : String) (fs : FileState) (rtFault : Option String) : OpResult :=
  match rtFault with
  | some m =>
    { result := { success := false, error := some (wrapUnexpected m),
                  table_name := some table_name },
      fs := fs, trace := {} }
  | none =>
    match fs with
    | .corrupt m =>
      { result := { success := false, error := some (wrapEngine m),
                    table_name := some table_name },
        fs := fs, trace := {} }
    | .good db =>
      match execStmt db (.createTableIfNotExists table_name columns) with
      | .error f =>
        { result := { success := false, error := some (faultMsg f),
                      table_name := some table_name },
          fs := .good db, trace := { opened := true, rollbacks := 1 } }
      | .ok (_, db') =>
        { result := { success := true, table_name := some table_name,
                      columns := some columns, sql := some (mkCreateSql table_name columns) },
          fs := .good db', trace := { opened := true, commits := 2 } }

/-- Embedding of `get_schema(db_path)`.  Note the failure dictionaries
carry no key besides `success` and `error`. -/
def get_schema (db_path : String) (fs : FileState) (rtFault : Option String) : OpResult :=
  match rtFault with
  | some m =>
    { result := { success := false, error := some (wrapUnexpected m) }, fs := fs, trace := {} }
  | none =>
    match fs with
    | .corrupt m =>
      { result := { success := false, error := some (wrapEngine m) }, fs := fs, trace := {} }
    | .good db =>
      let info : SchemaInfo :=
        { database_path := db_path,
          tables := db.tables.map
            (fun t => (t.name, ({ columns := t.cols, column_count := t.cols.length } : TableSchema))),
          table_count := db.tables.length }
      { result := { success := true, schema := some info },
        fs := .good db, trace := { opened := true, commits := 1 } }

/-- Embedding of `insert_data(table_name, data, db_path)`: build a
single-row insert from the mapping's keys and values, in order. -/
def insert_data (table_name : String) (data : Row) (db_path : String)
    (fs : FileState) (rtFault : Option String) : OpResult :=
  match rtFault with
  | some m =>
    { result := { success := false, error := some (wrapUnexpected m),
                  table_name := some table_name, data := some data },
      fs := fs, trace := {} }
  | none =>
    match fs with
    | .corrupt m =>
      { result := { success := false, error := some (wrapEngine m),
                    table_name := some table_name, data := some data },
        fs := fs, trace := {} }
    | .good db =>
      match execStmt db (.insertRow table_name (data.map (fun kv => kv.1))
                                               (data.map (fun kv => kv.2))) with
      | .error f =>
        { result := { success := false, error := some (faultMsg f),
                      table_name := some table_name, data := some data },
          fs := .good db, trace := { opened := true, rollbacks := 1 } }
      | .ok (r, db') =>
        { result := { success := true, table_name := some table_name,
                      inserted_data := some data, row_id := some r.lastrowid },
          fs := .good db', trace := { opened := true, commits := 2 } }

/-- Embedding of `get_table_data(table_name, limit, offset, where_clause,
db_path)`: run the page query, then a separate `COUNT(*)` query with the
same optional `WHERE` text; `if where_clause:` treats `None` and the empty
string alike (`effWhere`). -/
def get_table_data (table_name : String) (limit offset : Int)
    (where_clause : Option String) (db_path : String) (fs : FileState)
    (rtFault : Option String) : OpResult :=
  match rtFault with
  | some m =>
    { result := { success := false, error := some (wrapUnexpected m),
                  table_name := some table_name },
      fs := fs, trace := {} }
  | none =>
    match fs with
    | .corrupt m =>
      { result := { success := false, error := some (wrapEngine m),
                    table_name := some table_name },
        fs := fs, trace := {} }
    | .good db =>
      match execStmt db (.selectPage table_name (effWhere where_clause) limit offset) with
      | .error f =>
        { result := { success := false, error := some (faultMsg f),
                      table_name := some table_name },
          fs := .good db, trace := { opened := true, rollbacks := 1 } }
      | .ok (r1, _) =>
        match execStmt db (.countRows table_name (effWhere where_clause)) with
        | .error f =>
          { result := { success := false, error := some (faultMsg f),
                        table_name := some table_name },
            fs := .good db, trace := { opened := true, rollbacks := 1 } }
        | .ok (r2, _) =>
          { result := { success := true, table_name := some table_name,
                        rows := some r1.rows, returned_rows := some r1.rows.length,
                        total_rows := some (extractCount r2),
                        limit := some limit, offset := some offset,
                        where_clause := some where_clause },
            fs := .good db, trace := { opened := true, commits := 1 } }

/-- Embedding of `backup_database(db_path, backup_path)`.  The whole body
is guarded by a single `except Exception` clause producing
`f"Backup error: {str(e)}"`, whatever the fault's origin.  The default
destination is derived from the current timestamp (modelled by a fixed
placeholder name); the JSON write happens after the connection block, so a
write fault (`OSError`) still leaves the commit in the trace. -/
def backup_database (db_path : String) (backup_path : Option String)
    (fs : FileState) (writeFault : Option String) (rtFault : Option String) : OpResult :=
  match rtFault with
  | some m =>
    { result := { success := false, error := some (wrapBackup m),
                  source_database := some db_path },
      fs := fs, trace := {} }
  | none =>
    let bp := match backup_path with
      | none => "backup_TIMESTAMP.json"
      | some s => if s = "" then "backup_TIMESTAMP.json" else s
    match fs with
    | .corrupt m =>
      { result := { success := false, error := some (wrapBackup m),
                    source_database := some db_path },
        fs := fs, trace := {} }
    | .good db =>
      let tbs := db.tables.map
        (fun t => (t.name, ({ data := t.rows, row_count := t.rows.length } : TableBackup)))
      match writeFault with
      | some m =>
        { result := { success := false, error := some (wrapBackup m),
                      source_database := some db_path },
          fs := .good db, trace := { opened := true, commits := 1 } }
      | none =>
        { result := { success := true, backup_path := some bp,
                      source_database := some db_path,
                      tables_backed_up := some tbs.length,
                      total_rows := some ((tbs.map (fun e => e.2.row_count)).sum) },
          fs := .good db, trace := { opened := true, commits := 1 },
          written := some { source_database := db_path, tables := tbs } }

/-- An empty database file. -/
def db0 : DB := ⟨[]⟩

/-- A database with one empty table `t(id INTEGER)`. -/
def db1 : DB := ⟨[{ name := "t", cols := [("id", "INTEGER")], rows := [] }]⟩

/-- `db1` after inserting the row `{id: 1}`. -/
def db1insert : DB :=
  ⟨[{ name := "t", cols := [("id", "INTEGER")], rows := [[("id", Value.int 1)]], lastId := 1 }]⟩

/-- A database with one table `t(id INTEGER)` holding two rows. -/
def db2 : DB :=
  ⟨[{ name := "t", cols := [("id", "INTEGER")],
      rows := [[("id", Value.int 1)], [("id", Value.int 2)]], lastId := 2 }]⟩

theorem string_append_ne_of_length_ne (a b m : String) (h : a.length ≠ b.length) :
    a ++ m ≠ b ++ m := by
  intro he
  apply h
  have hl := congrArg String.length he
  simp only [String.length_append] at hl
  omega

theorem execStmt_readOnly_preserves (db : DB) (q : Stmt) (r : ExecResult) (db' : DB)
    (hro : readOnlyStmt q = true) (h : execStmt db q = .ok (r, db')) : db' = db := by
  cases q with
  | selectAll tn =>
    rcases hf : findTable db tn with _ | t
    · simp only [execStmt, hf] at h
      exact Except.noConfusion h
    · simp only [execStmt, hf] at h
      exact ((Prod.mk.injEq _ _ _ _).mp (Except.ok.inj h)).2.symm
  | selectPage tn w lim off =>
    rcases hf : findTable db tn with _ | t
    · simp only [execStmt, hf] at h
      exact Except.noConfusion h
    · simp only [execStmt, hf] at h
      rcases hw : resolveWhere t.cols w with f | pr
      · simp only [hw] at h
        exact Except.noConfusion h
      · simp only [hw] at h
        exact ((Prod.mk.injEq _ _ _ _).mp (Except.ok.inj h)).2.symm
  | countRows tn w =>
    rcases hf : findTable db tn with _ | t
    · simp only [execStmt, hf] at h
      exact Except.noConfusion h
    · simp only [execStmt, hf] at h
      rcases hw : resolveWhere t.cols w with f | pr
      · simp only [hw] at h
        exact Except.noConfusion h
      · simp only [hw] at h
        exact ((Prod.mk.injEq _ _ _ _).mp (Except.ok.inj h)).2.symm
  | insertRow tn cs vs => simp [readOnlyStmt] at hro
  | deleteWhere tn w => simp [readOnlyStmt] at hro
  | createTableIfNotExists tn cols => simp [readOnlyStmt] at hro
  | malformed s => simp [readOnlyStmt] at hro

/-- C1 (amended): every operation catches every fault raised during
execution (engine fault, fault on opening the database file, or any other
runtime fault) and returns a structured result with `success = false` and
an error message; every operation except `get_schema` also echoes
diagnostic context (the offending statement, the table name, or the source
database path) in the failure result.  `get_schema`'s failure result
carries only the flag and the message.  No call propagates an unhandled
fault: each operation is a total function into result dictionaries. -/
theorem c1_failures_structured
    (q : Stmt) (tn p : String) (cols : List (String × String)) (d : Row)
    (lim off : Int) (w : Option String) (bpo : Option String)
    (fs : FileState) (rf wf : Option String) :
    ((execute_query q p fs rf).result.success = true ∨
      ((execute_query q p fs rf).result.error.isSome = true ∧
       hasCtx (execute_query q p fs rf).result = true)) ∧
    ((execute_modification q p fs rf).result.success = true ∨
      ((execute_modification q p fs rf).result.error.isSome = true ∧
       hasCtx (execute_modification q p fs rf).result = true)) ∧
    ((create_table tn cols p fs rf).result.success = true ∨
      ((create_table tn cols p fs rf).result.error.isSome = true ∧
       hasCtx (create_table tn cols p fs rf).result = true)) ∧
    ((get_schema p fs rf).result.success = true ∨
      (get_schema p fs rf).result.error.isSome = true) ∧
    ((insert_data tn d p fs rf).result.success = true ∨
      ((insert_data tn d p fs rf).result.error.isSome = true ∧
       hasCtx (insert_data tn d p fs rf).result = true)) ∧
    ((get_table_data tn lim off w p fs rf).result.success = true ∨
      ((get_table_data tn lim off w p fs rf).result.error.isSome = true ∧
       hasCtx (get_table_data tn lim off w p fs rf).result = true)) ∧
    ((backup_database p bpo fs wf rf).result.success = true ∨
      ((backup_database p bpo fs wf rf).result.error.isSome = true ∧
       hasCtx (backup_database p bpo fs wf rf).result = true)) := by
  refine ⟨?_, ?_, ?_, ?_, ?_, ?_, ?_⟩
  · cases rf with
    | some m => right; simp [execute_query, hasCtx]
    | none =>
      cases fs with
      | corrupt m => right; simp [execute_query, hasCtx]
      | good db =>
        cases h : execStmt db q with
        | error f => right; simp [execute_query, h, hasCtx]
        | ok pr => left; simp [execute_query, h]
  · cases rf with
    | some m => right; simp [execute_modification, hasCtx]
    | none =>
      cases fs with
      | corrupt m => right; simp [execute_modification, hasCtx]
      | good db =>
        cases h : execStmt db q with
        | error f => right; simp [execute_modification, h, hasCtx]
        | ok pr => left; simp [execute_modification, h]
  · cases rf with
    | some m => right; simp [create_table, hasCtx]
    | none =>
      cases fs with
      | corrupt m => right; simp [create_table, hasCtx]
      | good db =>
        cases h : execStmt db (.createTableIfNotExists tn cols) with
        | error f => right; simp [create_table, h, hasCtx]
        | ok pr => left; simp [create_table, h]
  · cases rf with
    | some m => right; simp [get_schema]
    | none =>
      cases fs with
      | corrupt m => right; simp [get_schema]
      | good db => left; simp [get_schema]
  · cases rf with
    | some m => right; simp [insert_data, hasCtx]
    | none =>
      cases fs with
      | corrupt m => right; simp [insert_data, hasCtx]
      | good db =>
        cases h : execStmt db (.insertRow tn (d.map (fun kv => kv.1)) (d.map (fun kv => kv.2))) with
        | error f => right; simp [insert_data, h, hasCtx]
        | ok pr => left; simp [insert_data, h]
  · cases rf with
    | some m => right; simp [get_table_data, hasCtx]
    | none =>
      cases fs with
      | corrupt m => right; simp [get_table_data, hasCtx]
      | good db =>
        cases h1 : execStmt db (.selectPage tn (effWhere w) lim off) with
        | error f => right; simp [get_table_data, h1, hasCtx]
        | ok pr1 =>
          cases h2 : execStmt db (.countRows tn (effWhere w)) with
          | error f => right; simp [get_table_data, h1, h2, hasCtx]
          | ok pr2 => left; simp [get_table_data, h1, h2]
  · cases rf with
    | some m => right; simp [backup_database, hasCtx]
    | none =>
      cases fs with
      | corrupt m => right; simp [backup_database, hasCtx]
      | good db =>
        cases wf with
        | some m => right; simp [backup_database, hasCtx]
        | none => left; simp [backup_database]

/-- C1 counterexample: a `get_schema` failure carries no echoed diagnostic
context at all — its result dictionary holds only the `success` flag and
the error message, refuting the claim that every operation echoes context
(such as the offending statement or table name) on failure. -/
theorem c1_get_schema_failure_no_context :
    (get_schema "database.db" (.corrupt "unable to open database file") none).result =
      { success := false, error := some "SQLite error: unable to open database file" } ∧
    hasCtx (get_schema "database.db" (.corrupt "unable to open database file") none).result = false := by
  decide

/-- C2 (amended): six of the seven operations distinguish the two error
kinds — an engine fault is reported with a message `"SQLite error: …"` and
any other runtime fault with `"Unexpected error: …"`, and these two results
are distinct for every message.  `backup_database` does not: its single
`except Exception` handler reports both kinds as `"Backup error: …"`, so
the two categories are not distinguishable there. -/
theorem c2_error_categories
    (m : String) (q : Stmt) (tn p : String) (cols : List (String × String)) (d : Row)
    (lim off : Int) (w : Option String) (bpo : Option String) (fs : FileState) (db : DB) :
    ((execute_query q p (.corrupt m) none).result.error = some ("SQLite error: " ++ m) ∧
     (execute_query q p fs (some m)).result.error = some ("Unexpected error: " ++ m)) ∧
    ((execute_modification q p (.corrupt m) none).result.error = some ("SQLite error: " ++ m) ∧
     (execute_modification q p fs (some m)).result.error = some ("Unexpected error: " ++ m)) ∧
    ((create_table tn cols p (.corrupt m) none).result.error = some ("SQLite error: " ++ m) ∧
     (create_table tn cols p fs (some m)).result.error = some ("Unexpected error: " ++ m)) ∧
    ((get_schema p (.corrupt m) none).result.error = some ("SQLite error: " ++ m) ∧
     (get_schema p fs (some m)).result.error = some ("Unexpected error: " ++ m)) ∧
    ((insert_data tn d p (.corrupt m) none).result.error = some ("SQLite error: " ++ m) ∧
     (insert_data tn d p fs (some m)).result.error = some ("Unexpected error: " ++ m)) ∧
    ((get_table_data tn lim off w p (.corrupt m) none).result.error = some ("SQLite error: " ++ m) ∧
     (get_table_data tn lim off w p fs (some m)).result.error = some ("Unexpected error: " ++ m)) ∧
    ("SQLite error: " ++ m) ≠ ("Unexpected error: " ++ m) ∧
    ((backup_database p bpo (.corrupt m) none none).result.error = some ("Backup error: " ++ m) ∧
     (backup_database p bpo fs none (some m)).result.error = some ("Backup error: " ++ m) ∧
     (backup_database p bpo (.good db) (some m) none).result.error = some ("Backup error: " ++ m)) := by
  refine ⟨⟨rfl, rfl⟩, ⟨rfl, rfl⟩, ⟨rfl, rfl⟩, ⟨rfl, rfl⟩, ⟨rfl, rfl⟩, ⟨rfl, rfl⟩, ?_,
    ⟨rfl, rfl, rfl⟩⟩
  exact string_append_ne_of_length_ne _ _ _ (by decide)

/-- C2 counterexample: for `backup_database`, an engine-originating fault
(a database file on which the engine raises "disk I/O error") and a
non-engine runtime fault with the same message produce literally identical
failure results, so the two error categories are not distinguishable for
this operation. -/
theorem c2_backup_categories_collapse :
    (backup_database "database.db" none (.corrupt "disk I/O error") none none).result =
      (backup_database "database.db" none (.good db1) none (some "disk I/O error")).result ∧
    (backup_database "database.db" none (.corrupt "disk I/O error") none none).result.success = false := by
  decide

/-- C3 (code bug): evaluation at concrete inputs.  On both the success path
and the engine-error path the connection is opened and the `with` block
commits or rolls back, but no operation ever records a close: the source
contains no `conn.close()`, and the sqlite3 connection context manager
does not close on exit. -/
theorem c3_connection_never_closed :
    ((execute_query (.selectAll "t") "database.db" (.good db1) none).result.success = true ∧
     (execute_query (.selectAll "t") "database.db" (.good db1) none).trace.opened = true ∧
     (execute_query (.selectAll "t") "database.db" (.good db1) none).trace.closed = false) ∧
    ((execute_query (.selectAll "missing") "database.db" (.good db1) none).result.success = false ∧
     (execute_query (.selectAll "missing") "database.db" (.good db1) none).trace.opened = true ∧
     (execute_query (.selectAll "missing") "database.db" (.good db1) none).trace.closed = false) ∧
    (execute_modification (.insertRow "t" ["id"] [.int 1]) "database.db" (.good db1) none).trace.closed = false ∧
    (backup_database "database.db" none (.good db1) none none).trace.closed = false := by
  decide

/-- C4 counterexample: `execute_query` does not restrict statements to
read-only ones.  Passing an INSERT to it succeeds (no engine error) and the
database file content after the call differs from the content before. -/
theorem c4_query_mutates_database :
    (execute_query (.insertRow "t" ["id"] [.int 1]) "database.db" (.good db1) none).result.success = true ∧
    (execute_query (.insertRow "t" ["id"] [.int 1]) "database.db" (.good db1) none).fs = .good db1insert ∧
    FileState.good db1insert ≠ FileState.good db1 := by
  decide

/-- C4 (amended): `execute_query` performs no read-only enforcement.  The
database file is unchanged by the call whenever the statement actually is
read-only (and on every failure path), but a write statement handed to
`execute_query` is executed and committed exactly as `execute_modification`
would: on success the file content becomes the statement's effect. -/
theorem c4_no_readonly_enforcement :
    (∀ (q : Stmt) (p : String) (fs : FileState) (rf : Option String),
      readOnlyStmt q = true → (execute_query q p fs rf).fs = fs) ∧
    (∀ (q : Stmt) (p : String) (db : DB) (r : ExecResult) (db' : DB),
      execStmt db q = .ok (r, db') →
        (execute_query q p (.good db) none).fs = .good db' ∧
        (execute_query q p (.good db) none).result.success = true) := by
  constructor
  · intro q p fs rf hro
    cases rf with
    | some m => simp [execute_query]
    | none =>
      cases fs with
      | corrupt m => simp [execute_query]
      | good db =>
        cases h : execStmt db q with
        | error f => simp [execute_query, h]
        | ok pr =>
          obtain ⟨r, db'⟩ := pr
          have := execStmt_readOnly_preserves db q r db' hro h
          subst this
          simp [execute_query, h]
  · intro q p db r db' h
    simp [execute_query, h]

theorem c4_no_readonly_enforcement_witness :
    (execute_query (.selectAll "t") "p" (.good db1) none).fs = .good db1 ∧
    (execute_query (.insertRow "t" ["id"] [.int 1]) "p" (.good db1) none).fs = .good db1insert :=
  ⟨c4_no_readonly_enforcement.1 (.selectAll "t") "p" (.good db1) none rfl,
   (c4_no_readonly_enforcement.2 (.insertRow "t" ["id"] [.int 1]) "p" db1
      { rowcount := 1, lastrowid := some 1 } db1insert rfl).1⟩

/-- C5: on success `execute_modification` commits exactly the effect of the
single bound statement — the file content after the call is the engine's
post-state for that statement — and returns `affected_rows`
(`cursor.rowcount`) and `last_row_id` (`cursor.lastrowid`); on an engine
error the `with` block rolls the transaction back and the file content is
unchanged (single-statement atomicity is the engine's). -/
theorem c5_modification_commits (q : Stmt) (p : String) (db : DB) :
    (∀ (r : ExecResult) (db' : DB), execStmt db q = .ok (r, db') →
      ((execute_modification q p (.good db) none).result.success = true ∧
       (execute_modification q p (.good db) none).result.affected_rows = some r.rowcount ∧
       (execute_modification q p (.good db) none).result.last_row_id = some r.lastrowid ∧
       (execute_modification q p (.good db) none).fs = .good db')) ∧
    (∀ f, execStmt db q = .error f →
      ((execute_modification q p (.good db) none).result.success = false ∧
       (execute_modification q p (.good db) none).fs = .good db)) := by
  constructor
  · intro r db' h
    simp [execute_modification, h]
  · intro f h
    simp [execute_modification, h]

theorem c5_modification_commits_witness :
    ((execute_modification (.insertRow "t" ["id"] [.int 1]) "p" (.good db1) none).result.affected_rows =
        some 1 ∧
     (execute_modification (.insertRow "t" ["id"] [.int 1]) "p" (.good db1) none).fs = .good db1insert) ∧
    (execute_modification (.selectAll "missing") "p" (.good db1) none).fs = .good db1 :=
  ⟨⟨((c5_modification_commits (.insertRow "t" ["id"] [.int 1]) "p" db1).1
       { rowcount := 1, lastrowid := some 1 } db1insert rfl).2.1,
    ((c5_modification_commits (.insertRow "t" ["id"] [.int 1]) "p" db1).1
       { rowcount := 1, lastrowid := some 1 } db1insert rfl).2.2.2⟩,
   ((c5_modification_commits (.selectAll "missing") "p" db1).2
      (.engine ("no such table: " ++ "missing")) rfl).2⟩

/-- C6: for every table name and non-empty column map, `create_table`
synthesizes exactly the statement
`CREATE TABLE IF NOT EXISTS <tableName> (<name1> <type1>, …, <nameN> <typeN>)`
with the column definitions in the column map's iteration order, executes
it (the file content becomes the engine's post-state for that statement:
unchanged if the table already exists, otherwise extended by the new empty
table), and on success returns the table name, the unmodified column map,
and the synthesized statement text. -/
theorem c6_create_table_synthesis (tn : String) (cols : List (String × String))
    (p : String) (db : DB) (h : cols ≠ []) :
    (create_table tn cols p (.good db) none).result.success = true ∧
    (create_table tn cols p (.good db) none).result.table_name = some tn ∧
    (create_table tn cols p (.good db) none).result.columns = some cols ∧
    (create_table tn cols p (.good db) none).result.sql =
      some ("CREATE TABLE IF NOT EXISTS " ++ tn ++ " (" ++
        String.intercalate ", " (cols.map (fun c => c.1 ++ " " ++ c.2)) ++ ")") ∧
    (create_table tn cols p (.good db) none).fs =
      .good (match findTable db tn with
             | some _ => db
             | none => ⟨db.tables ++ [{ name := tn, cols := cols, rows := [] }]⟩) := by
  have hne : cols.isEmpty = false := by
    cases cols with
    | nil => exact absurd rfl h
    | cons a l => rfl
  rcases hf : findTable db tn with _ | t <;>
    simp [create_table, execStmt, hne, hf, mkCreateSql]

theorem c6_create_table_synthesis_witness :
    (create_table "u" [("id", "INTEGER"), ("name", "TEXT")] "p" (.good db0) none).result.success = true ∧
    (create_table "u" [("id", "INTEGER"), ("name", "TEXT")] "p" (.good db0) none).result.table_name = some "u" ∧
    (create_table "u" [("id", "INTEGER"), ("name", "TEXT")] "p" (.good db0) none).result.columns =
      some [("id", "INTEGER"), ("name", "TEXT")] ∧
    (create_table "u" [("id", "INTEGER"), ("name", "TEXT")] "p" (.good db0) none).result.sql =
      some ("CREATE TABLE IF NOT EXISTS " ++ "u" ++ " (" ++
        String.intercalate ", "
          ([("id", "INTEGER"), ("name", "TEXT")].map (fun c => c.1 ++ " " ++ c.2)) ++ ")") ∧
    (create_table "u" [("id", "INTEGER"), ("name", "TEXT")] "p" (.good db0) none).fs =
      .good (match findTable db0 "u" with
             | some _ => db0
             | none => ⟨db0.tables ++
                 [{ name := "u", cols := [("id", "INTEGER"), ("name", "TEXT")], rows := [] }]⟩) :=
  c6_create_table_synthesis "u" [("id", "INTEGER"), ("name", "TEXT")] "p" db0 (by decide)

/-- C7 counterexample: re-invoking `create_table` on an existing table is
not error-free for arbitrary column maps.  With the empty column map the
synthesized text `CREATE TABLE IF NOT EXISTS t ()` is a syntax error the
engine rejects even though table `t` already exists, so the call returns a
failure, refuting "never an error". -/
theorem c7_existing_table_empty_columns_error :
    (findTable db1 "t").isSome = true ∧
    (create_table "t" [] "p" (.good db1) none).result.success = false ∧
    (create_table "t" [] "p" (.good db1) none).result.error =
      some "SQLite error: near \")\": syntax error" := by
  decide

/-- C7 (amended): `create_table` is idempotent for every *non-empty* column
map: if the table name already exists in the target database, the call —
with identical or different columns — succeeds as a no-op that leaves the
database (the existing table's schema and rows) unchanged.  (With an empty
column map the synthesized statement itself is a syntax error, see the
counterexample.) -/
theorem c7_idempotent_for_nonempty_columns (tn : String) (cols : List (String × String))
    (p : String) (db : DB) (h1 : cols ≠ []) (h2 : (findTable db tn).isSome = true) :
    (create_table tn cols p (.good db) none).result.success = true ∧
    (create_table tn cols p (.good db) none).fs = .good db := by
  have hne : cols.isEmpty = false := by
    cases cols with
    | nil => exact absurd rfl h1
    | cons a l => rfl
  rcases ht : findTable db tn with _ | t
  · rw [ht] at h2
    simp at h2
  · simp [create_table, execStmt, hne, ht]

theorem c7_idempotent_for_nonempty_columns_witness :
    (create_table "t" [("x", "TEXT")] "p" (.good db1) none).result.success = true ∧
    (create_table "t" [("x", "TEXT")] "p" (.good db1) none).fs = .good db1 :=
  c7_idempotent_for_nonempty_columns "t" [("x", "TEXT")] "p" db1 (by decide) (by decide)

/-- C8 counterexample: the "at most L rows" bound fails for a negative
limit.  SQLite treats a negative `LIMIT` as "no limit", so
`get_table_data` with `limit = -1` on a two-row table succeeds and returns
2 rows, and `2 ≤ -1` is false. -/
theorem c8_negative_limit_returns_all :
    (get_table_data "t" (-1) 0 none "p" (.good db2) none).result.success = true ∧
    (get_table_data "t" (-1) 0 none "p" (.good db2) none).result.returned_rows = some 2 ∧
    ¬((2 : Int) ≤ -1) := by
  decide

/-- C8 (amended): for every table, non-negative limit L, offset O and fixed
`where_clause`, a successful `get_table_data` returns at most L rows;
`returned_rows` always equals the length of the returned row sequence; and
`total_rows` is produced by the separate `COUNT(*)` query with the same
optional `WHERE` clause — it equals the live matching row count and is
therefore the same for all choices of limit and offset against the same
database state.  (For a negative L the engine imposes no bound, see the
counterexample.) -/
theorem c8_pagination_bounds (tn : String) (lim off : Int) (w : Option String)
    (p : String) (db : DB) :
    ((get_table_data tn lim off w p (.good db) none).result.returned_rows =
      ((get_table_data tn lim off w p (.good db) none).result.rows).map List.length) ∧
    ((get_table_data tn lim off w p (.good db) none).result.success = true → 0 ≤ lim →
      ((((get_table_data tn lim off w p (.good db) none).result.rows).getD []).length : Int) ≤ lim) ∧
    ((get_table_data tn lim off w p (.good db) none).result.success = true →
      (get_table_data tn lim off w p (.good db) none).result.total_rows =
        liveCount db tn (effWhere w)) ∧
    (∀ (lim2 off2 : Int),
      (get_table_data tn lim off w p (.good db) none).result.total_rows =
        (get_table_data tn lim2 off2 w p (.good db) none).result.total_rows) := by
  rcases hf : findTable db tn with _ | t
  · refine ⟨?_, ?_, ?_, fun lim2 off2 => ?_⟩ <;>
      simp [get_table_data, execStmt, hf, liveCount]
  · rcases hw : resolveWhere t.cols (effWhere w) with f | pr
    · refine ⟨?_, ?_, ?_, fun lim2 off2 => ?_⟩ <;>
        simp [get_table_data, execStmt, hf, hw, liveCount]
    · refine ⟨?_, ?_, ?_, fun lim2 off2 => ?_⟩
      · simp [get_table_data, execStmt, hf, hw]
      · intro _ hl
        simp only [get_table_data, execStmt, hf, hw]
        simp only [Option.getD_some]
        simp [applyLimitOffset, if_neg (not_lt.mpr hl)]
        have hle := List.length_take_le lim.toNat
          (((t.rows.filter (evalPred pr)).drop off.toNat))
        omega
      · intro _
        simp [get_table_data, execStmt, hf, hw, liveCount, extractCount]
      · simp [get_table_data, execStmt, hf, hw]

theorem c8_pagination_bounds_witness :
    ((((get_table_data "t" 1 1 none "p" (.good db2) none).result.rows).getD []).length : Int) ≤ 1 ∧
    (get_table_data "t" 1 1 none "p" (.good db2) none).result.total_rows =
      liveCount db2 "t" (effWhere none) :=
  ⟨(c8_pagination_bounds "t" 1 1 none "p" db2).2.1 rfl (by decide),
   (c8_pagination_bounds "t" 1 1 none "p" db2).2.2.1 rfl⟩

/-- C9: every successful `backup_database` call produces a snapshot in
which each table's stored `row_count` equals the length of its serialized
row sequence, and the `total_rows` value returned to the caller equals the
sum of those per-table counts, which equals the sum of each table's live
row count at call time. -/
theorem c9_backup_row_counts (db : DB) (p : String) (bpo : Option String) :
    (backup_database p bpo (.good db) none none).result.success = true ∧
    (((backup_database p bpo (.good db) none none).written.getD ⟨p, []⟩).tables.all
        (fun e => e.2.row_count = e.2.data.length)) = true ∧
    (backup_database p bpo (.good db) none none).result.total_rows =
      some ((((backup_database p bpo (.good db) none none).written.getD ⟨p, []⟩).tables.map
        (fun e => e.2.row_count)).sum) ∧
    (backup_database p bpo (.good db) none none).result.total_rows =
      some ((db.tables.map (fun t => t.rows.length)).sum) := by
  refine ⟨rfl, ?_, rfl, ?_⟩
  · simp [backup_database, List.all_eq_true]
  · simp [backup_database, List.map_map]
    rfl

/-- C10: `get_table_data` with `where_clause` equal to the empty string
behaves like `get_table_data` with the clause omitted: the Python
truthiness test `if where_clause:` treats `""` like `None`, so no `WHERE`
is appended to the page query or to the `COUNT(*)` query and the empty
predicate silently means "no filter" instead of an engine error.  The two
calls agree on success flag, error, rows, row counts, the file state and
the connection trace (the `where_clause` key of the success dictionary
trivially echoes whichever argument was given). -/
theorem c10_empty_where_no_filter (tn : String) (lim off : Int) (p : String)
    (fs : FileState) (rf : Option String) :
    effWhere (some "") = effWhere none ∧
    (get_table_data tn lim off (some "") p fs rf).result.success =
      (get_table_data tn lim off none p fs rf).result.success ∧
    (get_table_data tn lim off (some "") p fs rf).result.error =
      (get_table_data tn lim off none p fs rf).result.error ∧
    (get_table_data tn lim off (some "") p fs rf).result.rows =
      (get_table_data tn lim off none p fs rf).result.rows ∧
    (get_table_data tn lim off (some "") p fs rf).result.returned_rows =
      (get_table_data tn lim off none p fs rf).result.returned_rows ∧
    (get_table_data tn lim off (some "") p fs rf).result.total_rows =
      (get_table_data tn lim off none p fs rf).result.total_rows ∧
    (get_table_data tn lim off (some "") p fs rf).result.table_name =
      (get_table_data tn lim off none p fs rf).result.table_name ∧
    (get_table_data tn lim off (some "") p fs rf).fs =
      (get_table_data tn lim off none p fs rf).fs ∧
    (get_table_data tn lim off (some "") p fs rf).trace =
      (get_table_data tn lim off none p fs rf).trace := by
  refine ⟨rfl, ?_, ?_, ?_, ?_, ?_, ?_, ?_, ?_⟩ <;>
  · cases rf with
    | some m => rfl
    | none =>
      cases fs with
      | corrupt m => rfl
      | good db =>
        cases h1 : execStmt db (.selectPage tn none lim off) with
        | error f => simp [get_table_data, effWhere, h1]
        | ok pr1 =>
          cases h2 : execStmt db (.countRows tn none) with
          | error f => simp [get_table_data, effWhere, h1, h2]
          | ok pr2 => simp [get_table_data, effWhere, h1, h2]

end SqliteTools
